import Mathlib

/-!
Verification of the session persistence manager
(`pkg/sessions/persistence/manager.go` of oauth2-proxy).

The manager orchestrates three collaborators: a `Store` (key/value backend),
a cookie builder, and the session `ticket` helpers
(`decodeTicketFromRequest`, `newTicket`, `saveSession`, `loadSession`,
`setCookie`, `clearCookie`, `clearSession`).  The collaborators' behaviour on
the current request is captured by an environment `Env` of oracle functions;
the manager's three entry points `Save`, `Load` and `Clear` are translated
from the Go source as pure functions from an environment (and, for `Save`,
a session state) to a result together with the ordered trace of observable
collaborator calls.

Go's `*time.Time` is modelled as `Option Nat`: `none` is the nil pointer and
`some 0` is a non-nil pointer at the zero time value (`IsZero`).
-/

/-- Go `error` values.  `noCookie` is the sentinel `http.ErrNoCookie`;
`sentinel n` stands for any other distinct error value; `errorf msg cause`
is `fmt.Errorf(msg+": %v", cause)`, which formats the cause into the new
message and does NOT preserve the `errors.Is` chain; `wrap cause` is an
error produced with `%w`, which does preserve the chain. -/
inductive GoError where
  | noCookie : GoError
  | sentinel : Nat → GoError
  | errorf : String → GoError → GoError
  | wrap : GoError → GoError
deriving DecidableEq, Repr

/-- Go `errors.Is(e, target)`: `e` equals `target` or `target` occurs in the
chain of `%w`-wrapped causes of `e`. -/
def GoError.is (e target : GoError) : Bool :=
  e == target ||
    match e with
    | .wrap c => GoError.is c target
    | _ => false

/-- The part of `sessions.SessionState` the manager inspects: the `CreatedAt`
pointer (`none` = nil, `some 0` = non-nil pointer to the zero time). -/
structure SessionState where
  CreatedAt : Option Nat
deriving DecidableEq, Repr

/-- A session ticket; only its identifier (the store key) is observable to
the manager. -/
structure Ticket where
  id : Nat
deriving DecidableEq, Repr

/-- Observable collaborator calls made during one manager operation, in
order. -/
inductive Event where
  | storeSave : Nat → Event
  | storeLoad : Nat → Event
  | storeClear : Nat → Event
  | setCookie : Nat → Event
  | clearCookie : Event
deriving DecidableEq, Repr

/-- The behaviour of the collaborators on the current request:

* `decodeTicket` — the result of `decodeTicketFromRequest(req, cookieBuilder)`;
* `newTicket` — the result of `newTicket(cookieBuilder)`;
* `encrypt s` — the serialization/encryption outcome inside
  `ticket.saveSession` (`none` = success);
* `storeSave k` — the result of `m.Store.Save(ctx, k, val, exp)`;
* `loadResult k` — the combined outcome of `m.Store.Load(ctx, k)` followed
  by decryption and deserialization inside `ticket.loadSession`;
* `storeClear k` — the result of `m.Store.Clear(ctx, k)`;
* `setCookieErr t s` — the result of `t.setCookie(rw, req, s)`;
* `clearCookieFresh` — the result of `clearCookie` on the fresh empty ticket
  minted inside `Clear`'s decode-failure branch;
* `clearCookieTicket t` — the result of `t.clearCookie(rw, req)` for a
  decoded ticket;
* `now` — the value of `time.Now()` (never the zero time in Go). -/
structure Env where
  decodeTicket : Except GoError Ticket
  newTicket : Except GoError Ticket
  encrypt : SessionState → Option GoError
  storeSave : Nat → Option GoError
  loadResult : Nat → Except GoError SessionState
  storeClear : Nat → Option GoError
  setCookieErr : Ticket → SessionState → Option GoError
  clearCookieFresh : Option GoError
  clearCookieTicket : Ticket → Option GoError
  now : Nat

/-- Modelled from the spec: `ticket.saveSession(s, storeWriter)` (ticket code
is not under src/) serializes and AEAD-encrypts the state — which may fail —
and on success invokes `storeWriter(id, ciphertext, ttl)`, i.e.
`m.Store.Save`; store errors propagate verbatim. -/
def Ticket.saveSession (t : Ticket) (s : SessionState) (env : Env) :
    Option GoError × List Event :=
  match env.encrypt s with
  | some e => (some e, [])
  | none => (env.storeSave t.id, [Event.storeSave t.id])

/-- Modelled from the spec: `ticket.loadSession(storeReader)` invokes
`storeReader(id)`, i.e. `m.Store.Load`, then decrypts and deserializes;
`Env.loadResult` is the combined outcome. -/
def Ticket.loadSession (t : Ticket) (env : Env) :
    Except GoError SessionState × List Event :=
  (env.loadResult t.id, [Event.storeLoad t.id])

/-- Modelled from the spec: `ticket.setCookie(rw, req, s)` encodes the ticket
via the cookie builder and writes the response cookie. -/
def Ticket.setCookie (t : Ticket) (s : SessionState) (env : Env) :
    Option GoError × List Event :=
  (env.setCookieErr t s, [Event.setCookie t.id])

/-- Modelled from the spec: `ticket.clearSession(storeDeleter)` invokes
`storeDeleter(id)`, i.e. `m.Store.Clear`. -/
def Ticket.clearSession (t : Ticket) (env : Env) :
    Option GoError × List Event :=
  (env.storeClear t.id, [Event.storeClear t.id])

/-- The `CreatedAt` stamping at the top of `Manager.Save`:
`if s.CreatedAt == nil || s.CreatedAt.IsZero() { now := time.Now();
s.CreatedAt = &now }`. -/
def Manager.stampCreatedAt (env : Env) (s : SessionState) : SessionState :=
  if s.CreatedAt = none ∨ s.CreatedAt = some 0 then
    { s with CreatedAt := some env.now }
  else
    s

/-- The ticket-acquisition step of `Manager.Save`: reuse the decoded ticket,
or on any decode failure mint a new one; a minting failure is returned as
`fmt.Errorf("error creating a session ticket: %v", err)`. -/
def Manager.saveTicket (env : Env) : Except GoError Ticket :=
  match env.decodeTicket with
  | .ok tckt => .ok tckt
  | .error _ =>
    match env.newTicket with
    | .ok tckt => .ok tckt
    | .error e => .error (GoError.errorf "error creating a session ticket" e)

/-- `Manager.Save(rw, req, s)`: stamp `CreatedAt` if nil or zero, decode or
mint a ticket, persist the session via the store, then set the response
cookie.  Returns the Go error, the state as mutated, and the call trace. -/
def Manager.Save (env : Env) (s : SessionState) :
    Option GoError × SessionState × List Event :=
  let s2 := Manager.stampCreatedAt env s
  match Manager.saveTicket env with
  | .error e => (some e, s2, [])
  | .ok tckt =>
    match Ticket.saveSession tckt s2 env with
    | (some e, tr) => (some e, s2, tr)
    | (none, tr) =>
      let r := Ticket.setCookie tckt s2 env
      (r.1, s2, tr ++ r.2)

/-- `Manager.Load(req)`: decode the ticket from the request cookie, returning
the decode error on failure, otherwise load the session via the store. -/
def Manager.Load (env : Env) : Except GoError SessionState × List Event :=
  match env.decodeTicket with
  | .error e => (.error e, [])
  | .ok tckt => Ticket.loadSession tckt env

/-- `Manager.Clear(rw, req)`: on decode failure, clear the cookie with a
fresh empty ticket (reporting a failure of that clear), return success if the
decode error was `http.ErrNoCookie`, otherwise the wrapped decode error; on
decode success, call `clearCookie` (its error is discarded by the source) and
return the result of `clearSession`. -/
def Manager.Clear (env : Env) : Option GoError × List Event :=
  match env.decodeTicket with
  | .error err =>
    match env.clearCookieFresh with
    | some e =>
      (some (GoError.errorf "error creating cookie to clear session" e),
        [Event.clearCookie])
    | none =>
      if GoError.is err GoError.noCookie then
        (none, [Event.clearCookie])
      else
        (some (GoError.errorf "error decoding ticket to clear session" err),
          [Event.clearCookie])
  | .ok tckt =>
    let _ := env.clearCookieTicket tckt
    let r := Ticket.clearSession tckt env
    (r.1, Event.clearCookie :: r.2)

/-- The state returned by `Save` is always the stamped input state: the
`CreatedAt` mutation happens before any fallible step. -/
theorem Manager.Save_state (env : Env) (s : SessionState) :
    (Manager.Save env s).2.1 = Manager.stampCreatedAt env s := by
  unfold Manager.Save
  rcases Manager.saveTicket env with e | tckt
  · rfl
  · rcases h : Ticket.saveSession tckt (Manager.stampCreatedAt env s) env with ⟨e?, tr⟩
    rcases e? with _ | e <;> simp [h]

/-- Claim C1: calling `Save` twice on the same state object stamps
`CreatedAt` only on the first call: given that `time.Now()` is never the
zero time, a second `Save` (under any environment) leaves the timestamp
written by the first `Save` unchanged. -/
theorem claim_C1_idempotent_createdAt (env env2 : Env) (s : SessionState)
    (hnow : env.now ≠ 0) :
    ((Manager.Save env2 (Manager.Save env s).2.1).2.1).CreatedAt
      = ((Manager.Save env s).2.1).CreatedAt := by
  rw [Manager.Save_state, Manager.Save_state]
  unfold Manager.stampCreatedAt
  rcases h : s.CreatedAt with _ | v
  · simp [h, hnow]
  · by_cases hv : v = 0 <;> simp [h, hv, hnow]

def envC1 : Env where
  decodeTicket := .ok ⟨1⟩
  newTicket := .ok ⟨2⟩
  encrypt := fun _ => none
  storeSave := fun _ => none
  loadResult := fun _ => .ok ⟨some 5⟩
  storeClear := fun _ => none
  setCookieErr := fun _ _ => none
  clearCookieFresh := none
  clearCookieTicket := fun _ => none
  now := 7

theorem claim_C1_idempotent_createdAt_witness :
    ((Manager.Save envC1 (Manager.Save envC1 ⟨none⟩).2.1).2.1).CreatedAt
      = ((Manager.Save envC1 ⟨none⟩).2.1).CreatedAt :=
  claim_C1_idempotent_createdAt envC1 envC1 ⟨none⟩ (by decide)

/-- Claim C4: when ticket decoding fails, `Load` returns exactly that decode
error with no session state and an empty call trace — in particular it never
calls `Store.Load`. -/
theorem claim_C4_load_decode_failure (env : Env) (e : GoError)
    (h : env.decodeTicket = .error e) :
    Manager.Load env = (.error e, []) := by
  unfold Manager.Load
  rw [h]

def envC4 : Env where
  decodeTicket := .error (.sentinel 3)
  newTicket := .ok ⟨2⟩
  encrypt := fun _ => none
  storeSave := fun _ => none
  loadResult := fun _ => .ok ⟨some 5⟩
  storeClear := fun _ => none
  setCookieErr := fun _ _ => none
  clearCookieFresh := none
  clearCookieTicket := fun _ => none
  now := 7

theorem claim_C4_load_decode_failure_witness :
    Manager.Load envC4 = (.error (.sentinel 3), []) :=
  claim_C4_load_decode_failure envC4 (.sentinel 3) rfl

/-- Claim C10: `Save` treats a non-nil `CreatedAt` pointing at the zero time
exactly like a nil one — in both cases the state comes back stamped with the
current time. -/
theorem claim_C10_zero_createdAt_restamped (env : Env) (s : SessionState)
    (h : s.CreatedAt = none ∨ s.CreatedAt = some 0) :
    ((Manager.Save env s).2.1).CreatedAt = some env.now := by
  rw [Manager.Save_state]
  unfold Manager.stampCreatedAt
  simp [h]

def envC10 : Env where
  decodeTicket := .ok ⟨1⟩
  newTicket := .ok ⟨2⟩
  encrypt := fun _ => none
  storeSave := fun _ => none
  loadResult := fun _ => .ok ⟨some 5⟩
  storeClear := fun _ => none
  setCookieErr := fun _ _ => none
  clearCookieFresh := none
  clearCookieTicket := fun _ => none
  now := 11

theorem claim_C10_zero_createdAt_restamped_witness :
    ((Manager.Save envC10 ⟨some 0⟩).2.1).CreatedAt = some 11 :=
  claim_C10_zero_createdAt_restamped envC10 ⟨some 0⟩ (Or.inr rfl)

/-- Claim C2: if the persistence step `ticket.saveSession` fails inside
`Save`, `Save` returns that error and `setCookie` is never invoked — no
set-cookie event appears in the call trace. -/
theorem claim_C2_no_setCookie_on_persist_failure (env : Env) (s : SessionState)
    (tckt : Ticket) (e : GoError)
    (ht : Manager.saveTicket env = .ok tckt)
    (hp : (Ticket.saveSession tckt (Manager.stampCreatedAt env s) env).1 = some e) :
    (Manager.Save env s).1 = some e ∧
      ∀ n, Event.setCookie n ∉ (Manager.Save env s).2.2 := by
  unfold Manager.Save
  rw [ht]
  unfold Ticket.saveSession at hp ⊢
  rcases henc : env.encrypt (Manager.stampCreatedAt env s) with _ | ee
  · rw [henc] at hp
    simp only at hp
    simp [henc, hp]
  · rw [henc] at hp
    simp only at hp
    simp [henc, hp]

def envC2 : Env where
  decodeTicket := .ok ⟨1⟩
  newTicket := .ok ⟨2⟩
  encrypt := fun _ => none
  storeSave := fun _ => some (.sentinel 6)
  loadResult := fun _ => .ok ⟨some 5⟩
  storeClear := fun _ => none
  setCookieErr := fun _ _ => none
  clearCookieFresh := none
  clearCookieTicket := fun _ => none
  now := 7

theorem claim_C2_no_setCookie_on_persist_failure_witness :
    (Manager.Save envC2 ⟨none⟩).1 = some (.sentinel 6) ∧
      ∀ n, Event.setCookie n ∉ (Manager.Save envC2 ⟨none⟩).2.2 :=
  claim_C2_no_setCookie_on_persist_failure envC2 ⟨none⟩ ⟨1⟩ (.sentinel 6) rfl rfl

/-- Claim C3: on ticket decode failure `Save` mints a new ticket rather than
returning the decode error — when minting succeeds, `Save` behaves exactly as
if the decode had produced the fresh ticket — and `Save` errors at this stage
only if `newTicket` itself fails, in which case it returns the wrapped
minting error (never the decode error). -/
theorem claim_C3_save_mints_on_decode_failure (env : Env) (s : SessionState)
    (ed : GoError) (h : env.decodeTicket = .error ed) :
    (∀ t, env.newTicket = .ok t →
        Manager.Save env s = Manager.Save { env with decodeTicket := .ok t } s) ∧
      (∀ en, env.newTicket = .error en →
        (Manager.Save env s).1
          = some (GoError.errorf "error creating a session ticket" en)) := by
  constructor
  · intro t hnt
    unfold Manager.Save Manager.saveTicket Manager.stampCreatedAt
    unfold Ticket.saveSession Ticket.setCookie
    rw [h, hnt]
  · intro en hnt
    unfold Manager.Save Manager.saveTicket
    rw [h, hnt]

def envC3 : Env where
  decodeTicket := .error (.sentinel 1)
  newTicket := .ok ⟨2⟩
  encrypt := fun _ => none
  storeSave := fun _ => none
  loadResult := fun _ => .ok ⟨some 5⟩
  storeClear := fun _ => none
  setCookieErr := fun _ _ => none
  clearCookieFresh := none
  clearCookieTicket := fun _ => none
  now := 7

theorem claim_C3_save_mints_on_decode_failure_witness :
    Manager.Save envC3 ⟨none⟩
      = Manager.Save { envC3 with decodeTicket := .ok ⟨2⟩ } ⟨none⟩ :=
  (claim_C3_save_mints_on_decode_failure envC3 ⟨none⟩ (.sentinel 1) rfl).1 ⟨2⟩ rfl

/-- Claim C8: an error returned by the store's `Save` operation is propagated
by `Manager.Save` verbatim — the identical error value, not wrapped — and the
store save is invoked exactly once (no retry). -/
theorem claim_C8_store_error_verbatim (env : Env) (s : SessionState)
    (tckt : Ticket) (e : GoError)
    (ht : Manager.saveTicket env = .ok tckt)
    (henc : env.encrypt (Manager.stampCreatedAt env s) = none)
    (hs : env.storeSave tckt.id = some e) :
    (Manager.Save env s).1 = some e ∧
      (Manager.Save env s).2.2.count (Event.storeSave tckt.id) = 1 := by
  simp only [Manager.Save, Ticket.saveSession, ht, henc, hs]
  simp

def envC8 : Env where
  decodeTicket := .ok ⟨1⟩
  newTicket := .ok ⟨2⟩
  encrypt := fun _ => none
  storeSave := fun _ => some (.sentinel 8)
  loadResult := fun _ => .ok ⟨some 5⟩
  storeClear := fun _ => none
  setCookieErr := fun _ _ => none
  clearCookieFresh := none
  clearCookieTicket := fun _ => none
  now := 7

theorem claim_C8_store_error_verbatim_witness :
    (Manager.Save envC8 ⟨none⟩).1 = some (.sentinel 8) ∧
      (Manager.Save envC8 ⟨none⟩).2.2.count (Event.storeSave 1) = 1 :=
  claim_C8_store_error_verbatim envC8 ⟨none⟩ ⟨1⟩ (.sentinel 8) rfl rfl rfl

/-- Claim C5: on a request carrying no session cookie (the decode error
satisfies `errors.Is(err, http.ErrNoCookie)`), `Clear` invokes the
cookie-clear path exactly once and — with the defensive cookie-clear
succeeding, as the cookie builder's contract requires when no cookie was
ever set — returns no error. -/
theorem claim_C5_clear_without_cookie (env : Env) (err : GoError)
    (hd : env.decodeTicket = .error err)
    (hnc : GoError.is err GoError.noCookie = true) :
    (Manager.Clear env).2.count Event.clearCookie = 1 ∧
      (env.clearCookieFresh = none → (Manager.Clear env).1 = none) := by
  unfold Manager.Clear
  rw [hd]
  rcases hf : env.clearCookieFresh with _ | e <;> simp [hf, hnc]

def envC5 : Env where
  decodeTicket := .error .noCookie
  newTicket := .ok ⟨2⟩
  encrypt := fun _ => none
  storeSave := fun _ => none
  loadResult := fun _ => .ok ⟨some 5⟩
  storeClear := fun _ => none
  setCookieErr := fun _ _ => none
  clearCookieFresh := none
  clearCookieTicket := fun _ => none
  now := 7

theorem claim_C5_clear_without_cookie_witness :
    (Manager.Clear envC5).2.count Event.clearCookie = 1 ∧
      (Manager.Clear envC5).1 = none :=
  ⟨(claim_C5_clear_without_cookie envC5 .noCookie rfl (by decide)).1,
    (claim_C5_clear_without_cookie envC5 .noCookie rfl (by decide)).2 rfl⟩

/-- Claim C6: on a request whose cookie is present but malformed (decode
fails with an error not satisfying `errors.Is(err, http.ErrNoCookie)`),
`Clear` still performs exactly one cookie-clear call and returns the decode
error wrapped with context (not a store error); if the defensive
cookie-clear itself fails, that failure is reported instead. -/
theorem claim_C6_clear_invalid_cookie (env : Env) (err : GoError)
    (hd : env.decodeTicket = .error err)
    (hnc : GoError.is err GoError.noCookie = false) :
    (Manager.Clear env).2.count Event.clearCookie = 1 ∧
      (env.clearCookieFresh = none →
        (Manager.Clear env).1
          = some (GoError.errorf "error decoding ticket to clear session" err)) ∧
      (∀ ce, env.clearCookieFresh = some ce →
        (Manager.Clear env).1
          = some (GoError.errorf "error creating cookie to clear session" ce)) := by
  unfold Manager.Clear
  rw [hd]
  rcases hf : env.clearCookieFresh with _ | e <;> simp [hf, hnc]

def envC6 : Env where
  decodeTicket := .error (.sentinel 4)
  newTicket := .ok ⟨2⟩
  encrypt := fun _ => none
  storeSave := fun _ => none
  loadResult := fun _ => .ok ⟨some 5⟩
  storeClear := fun _ => some (.sentinel 12)
  setCookieErr := fun _ _ => none
  clearCookieFresh := none
  clearCookieTicket := fun _ => none
  now := 7

theorem claim_C6_clear_invalid_cookie_witness :
    (Manager.Clear envC6).2.count Event.clearCookie = 1 ∧
      (Manager.Clear envC6).1
        = some (GoError.errorf "error decoding ticket to clear session"
            (.sentinel 4)) :=
  ⟨(claim_C6_clear_invalid_cookie envC6 (.sentinel 4) rfl (by decide)).1,
    (claim_C6_clear_invalid_cookie envC6 (.sentinel 4) rfl (by decide)).2.1 rfl⟩

/-- Claim C9: on a successfully decoded ticket, `Clear` issues the
cookie-clear before the store-entry deletion — the call trace is exactly the
cookie-clear followed by the store-clear — and the store deletion error is
returned, never dropped. -/
theorem claim_C9_clear_cookie_before_delete (env : Env) (tckt : Ticket)
    (hd : env.decodeTicket = .ok tckt) :
    Manager.Clear env
      = (env.storeClear tckt.id,
          [Event.clearCookie, Event.storeClear tckt.id]) := by
  unfold Manager.Clear Ticket.clearSession
  rw [hd]

def envC9 : Env where
  decodeTicket := .ok ⟨3⟩
  newTicket := .ok ⟨2⟩
  encrypt := fun _ => none
  storeSave := fun _ => none
  loadResult := fun _ => .ok ⟨some 5⟩
  storeClear := fun _ => some (.sentinel 5)
  setCookieErr := fun _ _ => none
  clearCookieFresh := none
  clearCookieTicket := fun _ => none
  now := 7

theorem claim_C9_clear_cookie_before_delete_witness :
    Manager.Clear envC9
      = (some (.sentinel 5), [Event.clearCookie, Event.storeClear 3]) :=
  claim_C9_clear_cookie_before_delete envC9 ⟨3⟩ rfl

def envC7 : Env where
  decodeTicket := .ok ⟨1⟩
  newTicket := .ok ⟨2⟩
  encrypt := fun _ => none
  storeSave := fun _ => none
  loadResult := fun _ => .ok ⟨some 5⟩
  storeClear := fun _ => none
  setCookieErr := fun _ _ => none
  clearCookieFresh := none
  clearCookieTicket := fun _ => some (.sentinel 9)
  now := 7

/-- Claim C7 counterexample: the ticket decodes successfully and the
cookie-clear step fails, yet `Clear` returns no error — the source discards
the result of `tckt.clearCookie(rw, req)` on the successful-decode path
(`manager.go` line 89 ignores the returned error), so this cookie-clear
failure is silently swallowed, not propagated. -/
theorem claim_C7_counterexample :
    envC7.decodeTicket = .ok ⟨1⟩ ∧
      envC7.clearCookieTicket ⟨1⟩ = some (.sentinel 9) ∧
      (Manager.Clear envC7).1 = none := by
  refine ⟨rfl, rfl, ?_⟩
  rfl

/-- Claim C7 amended: on a successfully decoded ticket, `Clear` issues the
cookie-clear but discards its outcome; the error returned is exactly the
store deletion result, independent of any cookie-clear failure.  Cookie-clear
failures are propagated (with context) only on the decode-failure path. -/
theorem claim_C7_amended_clear_discards_cookie_error (env : Env)
    (tckt : Ticket) (hd : env.decodeTicket = .ok tckt) :
    (Manager.Clear env).1 = env.storeClear tckt.id := by
  unfold Manager.Clear Ticket.clearSession
  rw [hd]

theorem claim_C7_amended_clear_discards_cookie_error_witness :
    (Manager.Clear envC7).1 = envC7.storeClear 1 :=
  claim_C7_amended_clear_discards_cookie_error envC7 ⟨1⟩ rfl
